import Mathlib

/-!
# Deployment script of the BettingPlatform contract

Shallow embedding of `scripts/deploy.cjs` and `scripts/deploy.ts` (their
bodies are the same statement for statement).  The two collaborators of the
script are made explicit:

* the Ledger Client (`ethers` of hardhat) is a record of operations over an
  arbitrary client state `σ`; every operation returns either a value or a
  thrown error, together with the next client state, so a stub may answer
  differently from one call to the next;
* the Process Host (`console`, `process.exit`) is the trace of effects the
  script produces, in program order.

Every ledger call the script makes is recorded in the same trace, with its
arguments and its outcome, which is what a spy on a stub records.
-/

namespace Deploy

/-! ## Values -/

/-- An error value, as thrown by the runtime or by the Ledger Client. -/
structure JsError where
  name : String
  message : String
deriving DecidableEq, Repr

/-- Outcome of an awaited call: the promise resolves with a value or rejects
with an error. -/
inductive Outcome (α : Type) where
  | ok : α → Outcome α
  | threw : JsError → Outcome α
deriving DecidableEq, Repr

/-- A signer as the script uses it: the fields `address` and `provider`.
The provider is an object of the Ledger Client, known by its identity. -/
structure Signer where
  address : String
  provider : Nat
deriving DecidableEq, Repr

/-- The contract factory object returned by `getContractFactory`, known by its
identity. -/
structure Factory where
  ref : Nat
deriving DecidableEq, Repr

/-- The contract object returned by `deploy` (the deployment handle), known by
its identity. -/
structure Handle where
  ref : Nat
deriving DecidableEq, Repr

/-- An argument of a console call or of `deploy`: the script only ever passes
strings and caught errors. -/
inductive JsVal where
  | str : String → JsVal
  | error : JsError → JsVal
deriving DecidableEq, Repr

/-! ## The Ledger Client -/

/-- The operations of the Ledger Client that the script calls, over a client
state `σ`.  `getBalance p a` is `p.getBalance(a)` on the provider `p`. -/
structure LedgerClient (σ : Type) where
  getSigners : σ → Outcome (List Signer) × σ
  getContractFactory : String → σ → Outcome Factory × σ
  deploy : Factory → List JsVal → σ → Outcome Handle × σ
  waitForDeployment : Handle → σ → Outcome Unit × σ
  getAddress : Handle → σ → Outcome String × σ
  getBalance : Nat → String → σ → Outcome Nat × σ

/-- One entry of the ledger-call log: the operation, its arguments and its
outcome. -/
inductive Call where
  | getSigners : Outcome (List Signer) → Call
  | getContractFactory : String → Outcome Factory → Call
  | deploy : Factory → List JsVal → Outcome Handle → Call
  | waitForDeployment : Handle → Outcome Unit → Call
  | getAddress : Handle → Outcome String → Call
  | getBalance : Nat → String → Outcome Nat → Call
deriving DecidableEq, Repr

/-- The six operations, without arguments, for call counts. -/
inductive Op where
  | getSigners | getContractFactory | deploy | waitForDeployment | getAddress
  | getBalance
deriving DecidableEq, Repr

/-- The operation of a log entry. -/
def Call.op : Call → Op
  | .getSigners _ => .getSigners
  | .getContractFactory _ _ => .getContractFactory
  | .deploy _ _ _ => .deploy
  | .waitForDeployment _ _ => .waitForDeployment
  | .getAddress _ _ => .getAddress
  | .getBalance _ _ _ => .getBalance

/-! ## The Process Host -/

/-- An observable effect of the script. `stdout` carries the line that
`console.log` prints, `stderr` the arguments of one `console.error` call,
`call` one ledger call, `exit` the status given to `process.exit`. -/
inductive Effect where
  | stdout : String → Effect
  | stderr : List JsVal → Effect
  | call : Call → Effect
  | exit : Nat → Effect
deriving DecidableEq, Repr

/-- The world the script runs in: the state of the Ledger Client and the
effects produced so far, oldest first. -/
structure World (σ : Type) where
  ledger : σ
  trace : List Effect

/-- An asynchronous computation of the script: from a world to an outcome and
the world it leaves. A thrown error keeps the effects already produced. -/
def Script (σ : Type) (α : Type) : Type := World σ → Outcome α × World σ

/-- Return a value. -/
def Script.pure {σ α : Type} (a : α) : Script σ α := fun w => (.ok a, w)

/-- Sequencing: a thrown error skips the rest. -/
def Script.bind {σ α β : Type} (m : Script σ α) (f : α → Script σ β) :
    Script σ β := fun w =>
  match m w with
  | (.ok a, w1) => f a w1
  | (.threw e, w1) => (.threw e, w1)

instance (σ : Type) : Monad (Script σ) where
  pure := Script.pure
  bind := Script.bind

/-- The statement `throw e`. -/
def throwJs {σ α : Type} (e : JsError) : Script σ α := fun w => (.threw e, w)

/-- The statement `try { body } catch (error) { handler error }`. -/
def tryCatchJs {σ α : Type} (body : Script σ α)
    (handler : JsError → Script σ α) : Script σ α := fun w =>
  match body w with
  | (.ok a, w1) => (.ok a, w1)
  | (.threw e, w1) => handler e w1

/-- Append one effect to the trace. -/
def emit {σ : Type} (ev : Effect) : Script σ Unit := fun w =>
  (.ok (), { w with trace := w.trace ++ [ev] })

/-- The call `console.log(a, b, ...)` on strings: the first string holds no
format specifier in this script, so the line is the arguments separated by
one space. -/
def consoleLog {σ : Type} (args : List String) : Script σ Unit :=
  emit (.stdout (" ".intercalate args))

/-- The call `console.error(a, b, ...)`: one record on the error stream. -/
def consoleError {σ : Type} (args : List JsVal) : Script σ Unit :=
  emit (.stderr args)

/-- The call `process.exit(code)`. -/
def processExit {σ : Type} (code : Nat) : Script σ Unit := emit (.exit code)

/-- An awaited call of a Ledger Client operation: the client state advances
and the call is logged with its outcome, whether it resolved or rejected. -/
def ledgerCall {σ α : Type} (op : σ → Outcome α × σ) (entry : Outcome α → Call) :
    Script σ α := fun w =>
  ((op w.ledger).1,
    { ledger := (op w.ledger).2,
      trace := w.trace ++ [.call (entry (op w.ledger).1)] })

/-- The error of reading `.address` of `undefined`, which is what the
destructuring `const [deployer] = []` binds. -/
def undefinedAddressError : JsError :=
  { name := "TypeError",
    message := "Cannot read properties of undefined (reading 'address')" }

/-! ## The script -/

/-- The function `main` of `scripts/deploy.cjs` (lines 3-21) and of
`scripts/deploy.ts` (lines 3-22). -/
def main {σ : Type} (L : LedgerClient σ) : Script σ Unit := do
  consoleLog ["Deploying BettingPlatform contract..."]
  tryCatchJs
    (do
      let signers ← ledgerCall L.getSigners Call.getSigners
      match signers with
      | [] => throwJs undefinedAddressError
      | deployer :: _ =>
        consoleLog ["Deploying contracts with the account:", deployer.address]
        let BettingPlatform ←
          ledgerCall (L.getContractFactory "BettingPlatform")
            (Call.getContractFactory "BettingPlatform")
        let bettingPlatform ←
          ledgerCall (L.deploy BettingPlatform []) (Call.deploy BettingPlatform [])
        ledgerCall (L.waitForDeployment bettingPlatform)
          (Call.waitForDeployment bettingPlatform)
        let address ←
          ledgerCall (L.getAddress bettingPlatform) (Call.getAddress bettingPlatform)
        let balance ←
          ledgerCall (L.getBalance deployer.provider deployer.address)
            (Call.getBalance deployer.provider deployer.address)
        consoleLog ["Account balance:", toString balance]
        consoleLog ["BettingPlatform deployed to: " ++ address])
    (fun error => do
      consoleError [.str "Error deploying contract:", .error error]
      throwJs error)

/-- The top-level statement of the script (deploy.cjs lines 25-30, deploy.ts
lines 26-33 when the file is the entry point):
`main().then(() => process.exit(0)).catch((error) => ...)`. -/
def entryPoint {σ : Type} (L : LedgerClient σ) : Script σ Unit := fun w =>
  match main L w with
  | (.ok _, w1) => processExit 0 w1
  | (.threw error, w1) =>
    (do consoleError [.error error]; processExit 1 : Script σ Unit) w1

/-- The trace of one run of the script as entry point, from client state `s`. -/
def run {σ : Type} (L : LedgerClient σ) (s : σ) : List Effect :=
  (entryPoint L { ledger := s, trace := [] }).2.trace

/-- The lines written to stdout, in order. -/
def stdoutOf : List Effect → List String
  | [] => []
  | .stdout l :: t => l :: stdoutOf t
  | _ :: t => stdoutOf t

/-- The records written to the error stream, in order. -/
def stderrOf : List Effect → List (List JsVal)
  | [] => []
  | .stderr r :: t => r :: stderrOf t
  | _ :: t => stderrOf t

/-- The ledger-call log, in order. -/
def callsOf : List Effect → List Call
  | [] => []
  | .call c :: t => c :: callsOf t
  | _ :: t => callsOf t

/-- The exit status: the argument of the first `process.exit`, if any. -/
def exitStatusOf : List Effect → Option Nat
  | [] => none
  | .exit n :: _ => some n
  | _ :: t => exitStatusOf t

/-- Number of calls of operation `op` in a trace. -/
def callCount (op : Op) (t : List Effect) : Nat :=
  ((callsOf t).filter (fun c => c.op = op)).length

/-- Whether some line starts with the text `p`. -/
def hasLineStarting (p : String) (lines : List String) : Bool :=
  lines.any (fun l => p.toList.isPrefixOf l.toList)

/-- The handles returned by the deploy calls of a log, in order. -/
def handlesOf : List Call → List Handle
  | [] => []
  | .deploy _ _ (.ok h) :: t => h :: handlesOf t
  | _ :: t => handlesOf t

/-- A caller of the exported `main` (deploy.ts line 35) that invokes it twice
in sequence, `await main(); await main();`. -/
def invokeTwice {σ : Type} (L : LedgerClient σ) : Script σ Unit := do
  main L
  main L

/-- The trace of two invocations of `main` in sequence from client state `s`. -/
def runTwice {σ : Type} (L : LedgerClient σ) (s : σ) : List Effect :=
  (invokeTwice L { ledger := s, trace := [] }).2.trace

/-! ## What the stub answers along a run

The steps are listed in the order in which the script awaits them. Each step
is asked of the client state the previous step left. -/

/-- Every step of a run from `s` succeeds: a signer is returned, the artifact
is resolved, the deployment is submitted and confirmed, the address is
retrieved and the balance is read. -/
def AllStepsSucceed {σ : Type} (L : LedgerClient σ) (s : σ) : Prop :=
  ∃ (deployer : Signer) (rest : List Signer) (f : Factory) (h : Handle)
    (d : String) (b : Nat) (s1 s2 s3 s4 s5 s6 : σ),
    L.getSigners s = (.ok (deployer :: rest), s1) ∧
    L.getContractFactory "BettingPlatform" s1 = (.ok f, s2) ∧
    L.deploy f [] s2 = (.ok h, s3) ∧
    L.waitForDeployment h s3 = (.ok (), s4) ∧
    L.getAddress h s4 = (.ok d, s5) ∧
    L.getBalance deployer.provider deployer.address s5 = (.ok b, s6)

/-- Some step of a run from `s` fails with error `e`, the steps before it
having succeeded. -/
inductive StepFails {σ : Type} (L : LedgerClient σ) (s : σ) : JsError → Prop where
  | signers (e : JsError) (s1 : σ)
      (h1 : L.getSigners s = (.threw e, s1)) : StepFails L s e
  | noSigner (s1 : σ)
      (h1 : L.getSigners s = (.ok [], s1)) : StepFails L s undefinedAddressError
  | artifact (e : JsError) (deployer : Signer) (rest : List Signer) (s1 s2 : σ)
      (h1 : L.getSigners s = (.ok (deployer :: rest), s1))
      (h2 : L.getContractFactory "BettingPlatform" s1 = (.threw e, s2)) :
      StepFails L s e
  | deploy (e : JsError) (deployer : Signer) (rest : List Signer) (f : Factory)
      (s1 s2 s3 : σ)
      (h1 : L.getSigners s = (.ok (deployer :: rest), s1))
      (h2 : L.getContractFactory "BettingPlatform" s1 = (.ok f, s2))
      (h3 : L.deploy f [] s2 = (.threw e, s3)) : StepFails L s e
  | wait (e : JsError) (deployer : Signer) (rest : List Signer) (f : Factory)
      (h : Handle) (s1 s2 s3 s4 : σ)
      (h1 : L.getSigners s = (.ok (deployer :: rest), s1))
      (h2 : L.getContractFactory "BettingPlatform" s1 = (.ok f, s2))
      (h3 : L.deploy f [] s2 = (.ok h, s3))
      (h4 : L.waitForDeployment h s3 = (.threw e, s4)) : StepFails L s e
  | address (e : JsError) (deployer : Signer) (rest : List Signer) (f : Factory)
      (h : Handle) (s1 s2 s3 s4 s5 : σ)
      (h1 : L.getSigners s = (.ok (deployer :: rest), s1))
      (h2 : L.getContractFactory "BettingPlatform" s1 = (.ok f, s2))
      (h3 : L.deploy f [] s2 = (.ok h, s3))
      (h4 : L.waitForDeployment h s3 = (.ok (), s4))
      (h5 : L.getAddress h s4 = (.threw e, s5)) : StepFails L s e
  | balance (e : JsError) (deployer : Signer) (rest : List Signer) (f : Factory)
      (h : Handle) (d : String) (s1 s2 s3 s4 s5 s6 : σ)
      (h1 : L.getSigners s = (.ok (deployer :: rest), s1))
      (h2 : L.getContractFactory "BettingPlatform" s1 = (.ok f, s2))
      (h3 : L.deploy f [] s2 = (.ok h, s3))
      (h4 : L.waitForDeployment h s3 = (.ok (), s4))
      (h5 : L.getAddress h s4 = (.ok d, s5))
      (h6 : L.getBalance deployer.provider deployer.address s5 = (.threw e, s6)) :
      StepFails L s e

/-! ## Stubs of the Ledger Client -/

/-- The error the failing stubs reject with. -/
def stubError : JsError := { name := "Error", message := "rejected by the stub" }

/-- The signer of the end-to-end scenario. -/
def stubSigner : Signer := { address := "0xABC", provider := 0 }

/-- The stub of the end-to-end scenario: signer `0xABC`, balance
`1000000000000000000`, deployed address `0xDEF`; every call succeeds and
`deploy` resolves with the same handle each time. -/
def scenarioStub : LedgerClient Unit :=
  { getSigners := fun s => (.ok [stubSigner], s)
    getContractFactory := fun _ s => (.ok { ref := 1 }, s)
    deploy := fun _ _ s => (.ok { ref := 2 }, s)
    waitForDeployment := fun _ s => (.ok (), s)
    getAddress := fun _ s => (.ok "0xDEF", s)
    getBalance := fun _ _ s => (.ok 1000000000000000000, s) }

/-- A stub with no signer configured: `getSigners` resolves with `[]`. -/
def noSignerStub : LedgerClient Unit :=
  { scenarioStub with getSigners := fun s => (.ok [], s) }

/-- A stub on which the artifact is not found. -/
def missingArtifactStub : LedgerClient Unit :=
  { scenarioStub with getContractFactory := fun _ s => (.threw stubError, s) }

/-- A stub on which the confirmation wait rejects. -/
def waitFailsStub : LedgerClient Unit :=
  { scenarioStub with waitForDeployment := fun _ s => (.threw stubError, s) }

/-- A stub on which the balance query rejects. -/
def balanceFailsStub : LedgerClient Unit :=
  { scenarioStub with getBalance := fun _ _ s => (.threw stubError, s) }

/-- A stub whose state counts the deployments: `deploy` resolves with a handle
not returned before. -/
def freshHandleStub : LedgerClient Nat :=
  { getSigners := fun s => (.ok [stubSigner], s)
    getContractFactory := fun _ s => (.ok { ref := 1 }, s)
    deploy := fun _ _ s => (.ok { ref := s }, s + 1)
    waitForDeployment := fun _ s => (.ok (), s)
    getAddress := fun _ s => (.ok "0xDEF", s)
    getBalance := fun _ _ s => (.ok 1000000000000000000, s) }

/-- A stub whose signer is available once: the state counts the calls of
`getSigners`, which rejects from the second call on. -/
def oneShotStub : LedgerClient Nat :=
  { getSigners := fun s =>
      if s = 0 then (.ok [stubSigner], s + 1) else (.threw stubError, s + 1)
    getContractFactory := fun _ s => (.ok { ref := 1 }, s)
    deploy := fun _ _ s => (.ok { ref := 2 }, s)
    waitForDeployment := fun _ s => (.ok (), s)
    getAddress := fun _ s => (.ok "0xDEF", s)
    getBalance := fun _ _ s => (.ok 1000000000000000000, s) }

/-! ## Lines printed by `console.log` -/

/-- The account line, printed from two arguments. -/
theorem accountLine_eq (a : String) :
    " ".intercalate ["Deploying contracts with the account:", a] =
      "Deploying contracts with the account: " ++ a := by
  have h : "Deploying contracts with the account:" ++ " " =
      "Deploying contracts with the account: " := by decide
  show ("Deploying contracts with the account:" ++ " ") ++ a = _
  rw [h]

/-- The balance line, printed from two arguments. -/
theorem balanceLine_eq (a : String) :
    " ".intercalate ["Account balance:", a] = "Account balance: " ++ a := by
  have h : "Account balance:" ++ " " = "Account balance: " := by decide
  show ("Account balance:" ++ " ") ++ a = _
  rw [h]

/-- A line printed from one argument is that argument. -/
theorem singleLine_eq (a : String) : " ".intercalate [a] = a := rfl

/-! ## The trace of a run, path by path -/

/-- When `getSigners` rejects, the run stops there. -/
theorem run_signers_threw {σ : Type} (L : LedgerClient σ) (s s1 : σ) (e : JsError)
    (h1 : L.getSigners s = (.threw e, s1)) :
    run L s =
      [.stdout "Deploying BettingPlatform contract...",
       .call (.getSigners (.threw e)),
       .stderr [.str "Error deploying contract:", .error e],
       .stderr [.error e],
       .exit 1] := by
  simp [run, entryPoint, main, bind, Script.bind, tryCatchJs, ledgerCall, consoleLog,
    consoleError, emit, processExit, throwJs, accountLine_eq, balanceLine_eq,
    singleLine_eq, h1]

/-- When `getSigners` resolves with no signer, reading the address of the
deployer throws and the run stops there. -/
theorem run_no_signer {σ : Type} (L : LedgerClient σ) (s s1 : σ)
    (h1 : L.getSigners s = (.ok [], s1)) :
    run L s =
      [.stdout "Deploying BettingPlatform contract...",
       .call (.getSigners (.ok [])),
       .stderr [.str "Error deploying contract:", .error undefinedAddressError],
       .stderr [.error undefinedAddressError],
       .exit 1] := by
  simp [run, entryPoint, main, bind, Script.bind, tryCatchJs, ledgerCall, consoleLog,
    consoleError, emit, processExit, throwJs, accountLine_eq, balanceLine_eq,
    singleLine_eq, h1]

/-- The trace of a run on which artifact resolution rejects. -/
theorem run_artifact_threw {σ : Type} (L : LedgerClient σ) (s s1 s2 : σ)
    (deployer : Signer) (rest : List Signer) (e : JsError)
    (h1 : L.getSigners s = (.ok (deployer :: rest), s1))
    (h2 : L.getContractFactory "BettingPlatform" s1 = (.threw e, s2)) :
    run L s =
      [.stdout "Deploying BettingPlatform contract...",
       .call (.getSigners (.ok (deployer :: rest))),
       .stdout ("Deploying contracts with the account: " ++ deployer.address),
       .call (.getContractFactory "BettingPlatform" (.threw e)),
       .stderr [.str "Error deploying contract:", .error e],
       .stderr [.error e],
       .exit 1] := by
  simp [run, entryPoint, main, bind, Script.bind, tryCatchJs, ledgerCall, consoleLog,
    consoleError, emit, processExit, throwJs, accountLine_eq, balanceLine_eq,
    singleLine_eq, h1, h2]

/-- The trace of a run on which deploy rejects. -/
theorem run_deploy_threw {σ : Type} (L : LedgerClient σ) (s s1 s2 s3 : σ)
    (deployer : Signer) (rest : List Signer) (f : Factory) (e : JsError)
    (h1 : L.getSigners s = (.ok (deployer :: rest), s1))
    (h2 : L.getContractFactory "BettingPlatform" s1 = (.ok f, s2))
    (h3 : L.deploy f [] s2 = (.threw e, s3)) :
    run L s =
      [.stdout "Deploying BettingPlatform contract...",
       .call (.getSigners (.ok (deployer :: rest))),
       .stdout ("Deploying contracts with the account: " ++ deployer.address),
       .call (.getContractFactory "BettingPlatform" (.ok f)),
       .call (.deploy f [] (.threw e)),
       .stderr [.str "Error deploying contract:", .error e],
       .stderr [.error e],
       .exit 1] := by
  simp [run, entryPoint, main, bind, Script.bind, tryCatchJs, ledgerCall, consoleLog,
    consoleError, emit, processExit, throwJs, accountLine_eq, balanceLine_eq,
    singleLine_eq, h1, h2, h3]

/-- The trace of a run on which the confirmation wait rejects. -/
theorem run_wait_threw {σ : Type} (L : LedgerClient σ) (s s1 s2 s3 s4 : σ)
    (deployer : Signer) (rest : List Signer) (f : Factory) (h : Handle) (e : JsError)
    (h1 : L.getSigners s = (.ok (deployer :: rest), s1))
    (h2 : L.getContractFactory "BettingPlatform" s1 = (.ok f, s2))
    (h3 : L.deploy f [] s2 = (.ok h, s3))
    (h4 : L.waitForDeployment h s3 = (.threw e, s4)) :
    run L s =
      [.stdout "Deploying BettingPlatform contract...",
       .call (.getSigners (.ok (deployer :: rest))),
       .stdout ("Deploying contracts with the account: " ++ deployer.address),
       .call (.getContractFactory "BettingPlatform" (.ok f)),
       .call (.deploy f [] (.ok h)),
       .call (.waitForDeployment h (.threw e)),
       .stderr [.str "Error deploying contract:", .error e],
       .stderr [.error e],
       .exit 1] := by
  simp [run, entryPoint, main, bind, Script.bind, tryCatchJs, ledgerCall, consoleLog,
    consoleError, emit, processExit, throwJs, accountLine_eq, balanceLine_eq,
    singleLine_eq, h1, h2, h3, h4]

/-- The trace of a run on which address retrieval rejects. -/
theorem run_address_threw {σ : Type} (L : LedgerClient σ) (s s1 s2 s3 s4 s5 : σ)
    (deployer : Signer) (rest : List Signer) (f : Factory) (h : Handle) (e : JsError)
    (h1 : L.getSigners s = (.ok (deployer :: rest), s1))
    (h2 : L.getContractFactory "BettingPlatform" s1 = (.ok f, s2))
    (h3 : L.deploy f [] s2 = (.ok h, s3))
    (h4 : L.waitForDeployment h s3 = (.ok (), s4))
    (h5 : L.getAddress h s4 = (.threw e, s5)) :
    run L s =
      [.stdout "Deploying BettingPlatform contract...",
       .call (.getSigners (.ok (deployer :: rest))),
       .stdout ("Deploying contracts with the account: " ++ deployer.address),
       .call (.getContractFactory "BettingPlatform" (.ok f)),
       .call (.deploy f [] (.ok h)),
       .call (.waitForDeployment h (.ok ())),
       .call (.getAddress h (.threw e)),
       .stderr [.str "Error deploying contract:", .error e],
       .stderr [.error e],
       .exit 1] := by
  simp [run, entryPoint, main, bind, Script.bind, tryCatchJs, ledgerCall, consoleLog,
    consoleError, emit, processExit, throwJs, accountLine_eq, balanceLine_eq,
    singleLine_eq, h1, h2, h3, h4, h5]

/-- The trace of a run on which the balance query rejects. -/
theorem run_balance_threw {σ : Type} (L : LedgerClient σ) (s s1 s2 s3 s4 s5 s6 : σ)
    (deployer : Signer) (rest : List Signer) (f : Factory) (h : Handle) (d : String) (e : JsError)
    (h1 : L.getSigners s = (.ok (deployer :: rest), s1))
    (h2 : L.getContractFactory "BettingPlatform" s1 = (.ok f, s2))
    (h3 : L.deploy f [] s2 = (.ok h, s3))
    (h4 : L.waitForDeployment h s3 = (.ok (), s4))
    (h5 : L.getAddress h s4 = (.ok d, s5))
    (h6 : L.getBalance deployer.provider deployer.address s5 = (.threw e, s6)) :
    run L s =
      [.stdout "Deploying BettingPlatform contract...",
       .call (.getSigners (.ok (deployer :: rest))),
       .stdout ("Deploying contracts with the account: " ++ deployer.address),
       .call (.getContractFactory "BettingPlatform" (.ok f)),
       .call (.deploy f [] (.ok h)),
       .call (.waitForDeployment h (.ok ())),
       .call (.getAddress h (.ok d)),
       .call (.getBalance deployer.provider deployer.address (.threw e)),
       .stderr [.str "Error deploying contract:", .error e],
       .stderr [.error e],
       .exit 1] := by
  simp [run, entryPoint, main, bind, Script.bind, tryCatchJs, ledgerCall, consoleLog,
    consoleError, emit, processExit, throwJs, accountLine_eq, balanceLine_eq,
    singleLine_eq, h1, h2, h3, h4, h5, h6]

/-- On the path where every step succeeds, `main` resolves, leaves the client
in the state after the balance query and appends its ten effects to the trace. -/
theorem main_success {σ : Type} (L : LedgerClient σ) (s s1 s2 s3 s4 s5 s6 : σ)
    (t : List Effect)
    (deployer : Signer) (rest : List Signer) (f : Factory) (h : Handle)
    (d : String) (b : Nat)
    (h1 : L.getSigners s = (.ok (deployer :: rest), s1))
    (h2 : L.getContractFactory "BettingPlatform" s1 = (.ok f, s2))
    (h3 : L.deploy f [] s2 = (.ok h, s3))
    (h4 : L.waitForDeployment h s3 = (.ok (), s4))
    (h5 : L.getAddress h s4 = (.ok d, s5))
    (h6 : L.getBalance deployer.provider deployer.address s5 = (.ok b, s6)) :
    main L { ledger := s, trace := t } =
      (.ok (),
       { ledger := s6,
         trace := t ++
          [.stdout "Deploying BettingPlatform contract...",
           .call (.getSigners (.ok (deployer :: rest))),
           .stdout ("Deploying contracts with the account: " ++ deployer.address),
           .call (.getContractFactory "BettingPlatform" (.ok f)),
           .call (.deploy f [] (.ok h)),
           .call (.waitForDeployment h (.ok ())),
           .call (.getAddress h (.ok d)),
           .call (.getBalance deployer.provider deployer.address (.ok b)),
           .stdout ("Account balance: " ++ toString b),
           .stdout ("BettingPlatform deployed to: " ++ d)] }) := by
  simp [main, bind, Script.bind, tryCatchJs, ledgerCall, consoleLog,
    consoleError, emit, throwJs, accountLine_eq, balanceLine_eq,
    singleLine_eq, h1, h2, h3, h4, h5, h6]

/-- The trace of a run on which every step succeeds. -/
theorem run_success {σ : Type} (L : LedgerClient σ) (s s1 s2 s3 s4 s5 s6 : σ)
    (deployer : Signer) (rest : List Signer) (f : Factory) (h : Handle)
    (d : String) (b : Nat)
    (h1 : L.getSigners s = (.ok (deployer :: rest), s1))
    (h2 : L.getContractFactory "BettingPlatform" s1 = (.ok f, s2))
    (h3 : L.deploy f [] s2 = (.ok h, s3))
    (h4 : L.waitForDeployment h s3 = (.ok (), s4))
    (h5 : L.getAddress h s4 = (.ok d, s5))
    (h6 : L.getBalance deployer.provider deployer.address s5 = (.ok b, s6)) :
    run L s =
      [.stdout "Deploying BettingPlatform contract...",
       .call (.getSigners (.ok (deployer :: rest))),
       .stdout ("Deploying contracts with the account: " ++ deployer.address),
       .call (.getContractFactory "BettingPlatform" (.ok f)),
       .call (.deploy f [] (.ok h)),
       .call (.waitForDeployment h (.ok ())),
       .call (.getAddress h (.ok d)),
       .call (.getBalance deployer.provider deployer.address (.ok b)),
       .stdout ("Account balance: " ++ toString b),
       .stdout ("BettingPlatform deployed to: " ++ d),
       .exit 0] := by
  simp [run, entryPoint, processExit, emit,
    main_success L s s1 s2 s3 s4 s5 s6 [] deployer rest f h d b h1 h2 h3 h4 h5 h6]

/-- Every run either has all its steps succeed or has one step fail. -/
theorem run_cases {σ : Type} (L : LedgerClient σ) (s : σ) :
    AllStepsSucceed L s ∨ ∃ e, StepFails L s e := by
  rcases h1 : L.getSigners s with ⟨r1, s1⟩
  cases r1 with
  | threw e => exact Or.inr ⟨e, .signers e s1 h1⟩
  | ok signers =>
    cases signers with
    | nil => exact Or.inr ⟨_, .noSigner s1 h1⟩
    | cons deployer rest =>
      rcases h2 : L.getContractFactory "BettingPlatform" s1 with ⟨r2, s2⟩
      cases r2 with
      | threw e => exact Or.inr ⟨e, .artifact e deployer rest s1 s2 h1 h2⟩
      | ok f =>
        rcases h3 : L.deploy f [] s2 with ⟨r3, s3⟩
        cases r3 with
        | threw e => exact Or.inr ⟨e, .deploy e deployer rest f s1 s2 s3 h1 h2 h3⟩
        | ok h =>
          rcases h4 : L.waitForDeployment h s3 with ⟨r4, s4⟩
          cases r4 with
          | threw e => exact Or.inr ⟨e, .wait e deployer rest f h s1 s2 s3 s4 h1 h2 h3 h4⟩
          | ok u =>
            rcases h5 : L.getAddress h s4 with ⟨r5, s5⟩
            cases r5 with
            | threw e =>
              exact Or.inr ⟨e, .address e deployer rest f h s1 s2 s3 s4 s5 h1 h2 h3 h4 h5⟩
            | ok d =>
              rcases h6 : L.getBalance deployer.provider deployer.address s5 with ⟨r6, s6⟩
              cases r6 with
              | threw e =>
                exact Or.inr
                  ⟨e, .balance e deployer rest f h d s1 s2 s3 s4 s5 s6 h1 h2 h3 h4 h5 h6⟩
              | ok b =>
                exact Or.inl ⟨deployer, rest, f, h, d, b, s1, s2, s3, s4, s5, s6,
                  h1, h2, h3, h4, h5, h6⟩

/-- A run on which a step fails with `e` ends with the two error records and
the exit with status 1; before them nothing is written to the error stream
and the process has not exited. -/
theorem run_of_stepFails {σ : Type} (L : LedgerClient σ) (s : σ) (e : JsError)
    (hf : StepFails L s e) :
    ∃ pre, run L s = pre ++
        [.stderr [.str "Error deploying contract:", .error e], .stderr [.error e],
         .exit 1] ∧ stderrOf pre = [] ∧ exitStatusOf pre = none := by
  cases hf with
  | signers e s1 h1 =>
    rw [run_signers_threw L s s1 e h1]
    exact ⟨[_, _], rfl, rfl, rfl⟩
  | noSigner s1 h1 =>
    rw [run_no_signer L s s1 h1]
    exact ⟨[_, _], rfl, rfl, rfl⟩
  | artifact e deployer rest s1 s2 h1 h2 =>
    rw [run_artifact_threw L s s1 s2 deployer rest e h1 h2]
    exact ⟨[_, _, _, _], rfl, rfl, rfl⟩
  | deploy e deployer rest f s1 s2 s3 h1 h2 h3 =>
    rw [run_deploy_threw L s s1 s2 s3 deployer rest f e h1 h2 h3]
    exact ⟨[_, _, _, _, _], rfl, rfl, rfl⟩
  | wait e deployer rest f h s1 s2 s3 s4 h1 h2 h3 h4 =>
    rw [run_wait_threw L s s1 s2 s3 s4 deployer rest f h e h1 h2 h3 h4]
    exact ⟨[_, _, _, _, _, _], rfl, rfl, rfl⟩
  | address e deployer rest f h s1 s2 s3 s4 s5 h1 h2 h3 h4 h5 =>
    rw [run_address_threw L s s1 s2 s3 s4 s5 deployer rest f h e h1 h2 h3 h4 h5]
    exact ⟨[_, _, _, _, _, _, _], rfl, rfl, rfl⟩
  | balance e deployer rest f h d s1 s2 s3 s4 s5 s6 h1 h2 h3 h4 h5 h6 =>
    rw [run_balance_threw L s s1 s2 s3 s4 s5 s6 deployer rest f h d e h1 h2 h3 h4 h5 h6]
    exact ⟨[_, _, _, _, _, _, _, _], rfl, rfl, rfl⟩

/-! ## Projections of a trace -/

/-- The error stream of a trace in two parts. -/
theorem stderrOf_append (a b : List Effect) :
    stderrOf (a ++ b) = stderrOf a ++ stderrOf b := by
  induction a with
  | nil => rfl
  | cons x t ih => cases x <;> simp [stderrOf, ih]

/-- The exit status of a trace whose first part holds no exit. -/
theorem exitStatusOf_append (a b : List Effect) (ha : exitStatusOf a = none) :
    exitStatusOf (a ++ b) = exitStatusOf b := by
  induction a with
  | nil => rfl
  | cons x t ih => cases x <;> simp_all [exitStatusOf]

/-- A run on which a step fails exits with status 1. -/
theorem exit_of_stepFails {σ : Type} (L : LedgerClient σ) (s : σ) (e : JsError)
    (hf : StepFails L s e) : exitStatusOf (run L s) = some 1 := by
  obtain ⟨pre, hrun, -, hex⟩ := run_of_stepFails L s e hf
  rw [hrun, exitStatusOf_append _ _ hex]
  rfl

/-- A run on which every step succeeds exits with status 0. -/
theorem exit_of_allStepsSucceed {σ : Type} (L : LedgerClient σ) (s : σ)
    (hs : AllStepsSucceed L s) : exitStatusOf (run L s) = some 0 := by
  obtain ⟨deployer, rest, f, h, d, b, s1, s2, s3, s4, s5, s6, h1, h2, h3, h4, h5, h6⟩ := hs
  rw [run_success L s s1 s2 s3 s4 s5 s6 deployer rest f h d b h1 h2 h3 h4 h5 h6]
  rfl

/-- Neither the announcement nor the account line starts like the balance
line. -/
theorem no_balance_line (a : String) :
    hasLineStarting "Account balance:"
      ["Deploying BettingPlatform contract...",
       "Deploying contracts with the account: " ++ a] = false := by
  simp [hasLineStarting, String.toList, String.data_append, List.isPrefixOf]

/-- Neither the announcement nor the account line starts like the deployed
line. -/
theorem no_deployed_line (a : String) :
    hasLineStarting "BettingPlatform deployed to:"
      ["Deploying BettingPlatform contract...",
       "Deploying contracts with the account: " ++ a] = false := by
  simp [hasLineStarting, String.toList, String.data_append, List.isPrefixOf]

/-- When a step fails with `e`, the promise of `main` rejects with `e` itself:
the catch block rethrows what it caught. -/
theorem main_of_stepFails {σ : Type} (L : LedgerClient σ) (s : σ) (t : List Effect)
    (e : JsError) (hf : StepFails L s e) :
    (main L { ledger := s, trace := t }).1 = .threw e := by
  cases hf with
  | signers e s1 h1 =>
    simp [main, bind, Script.bind, tryCatchJs, ledgerCall, consoleLog, consoleError,
      emit, throwJs, h1]
  | noSigner s1 h1 =>
    simp [main, bind, Script.bind, tryCatchJs, ledgerCall, consoleLog, consoleError,
      emit, throwJs, h1]
  | artifact e deployer rest s1 s2 h1 h2 =>
    simp [main, bind, Script.bind, tryCatchJs, ledgerCall, consoleLog, consoleError,
      emit, throwJs, h1, h2]
  | deploy e deployer rest f s1 s2 s3 h1 h2 h3 =>
    simp [main, bind, Script.bind, tryCatchJs, ledgerCall, consoleLog, consoleError,
      emit, throwJs, h1, h2, h3]
  | wait e deployer rest f h s1 s2 s3 s4 h1 h2 h3 h4 =>
    simp [main, bind, Script.bind, tryCatchJs, ledgerCall, consoleLog, consoleError,
      emit, throwJs, h1, h2, h3, h4]
  | address e deployer rest f h s1 s2 s3 s4 s5 h1 h2 h3 h4 h5 =>
    simp [main, bind, Script.bind, tryCatchJs, ledgerCall, consoleLog, consoleError,
      emit, throwJs, h1, h2, h3, h4, h5]
  | balance e deployer rest f h d s1 s2 s3 s4 s5 s6 h1 h2 h3 h4 h5 h6 =>
    simp [main, bind, Script.bind, tryCatchJs, ledgerCall, consoleLog, consoleError,
      emit, throwJs, h1, h2, h3, h4, h5, h6]

/-! ## Properties of a run -/

/-- C1: on a stub on which every ledger operation of the run succeeds, with
signer address `a = deployer.address`, balance `b` and deployed address `d`,
a run writes exactly four lines to stdout, in this order: the announcement,
the account line with `a`, the balance line with the decimal string of `b`,
the deployed line with `d`; it writes nothing to the error stream and the
process exits with status 0. -/
theorem success_writes_four_lines {σ : Type} (L : LedgerClient σ)
    (s s1 s2 s3 s4 s5 s6 : σ)
    (deployer : Signer) (rest : List Signer) (f : Factory) (h : Handle)
    (d : String) (b : Nat)
    (h1 : L.getSigners s = (.ok (deployer :: rest), s1))
    (h2 : L.getContractFactory "BettingPlatform" s1 = (.ok f, s2))
    (h3 : L.deploy f [] s2 = (.ok h, s3))
    (h4 : L.waitForDeployment h s3 = (.ok (), s4))
    (h5 : L.getAddress h s4 = (.ok d, s5))
    (h6 : L.getBalance deployer.provider deployer.address s5 = (.ok b, s6)) :
    stdoutOf (run L s) =
      ["Deploying BettingPlatform contract...",
       "Deploying contracts with the account: " ++ deployer.address,
       "Account balance: " ++ toString b,
       "BettingPlatform deployed to: " ++ d] ∧
    stderrOf (run L s) = [] ∧
    exitStatusOf (run L s) = some 0 := by
  rw [run_success L s s1 s2 s3 s4 s5 s6 deployer rest f h d b h1 h2 h3 h4 h5 h6]
  exact ⟨rfl, rfl, rfl⟩

/-- C1 at the end-to-end scenario: signer `0xABC`, balance
`1000000000000000000`, deployed address `0xDEF`. -/
theorem success_writes_four_lines_witness :
    stdoutOf (run scenarioStub ()) =
      ["Deploying BettingPlatform contract...",
       "Deploying contracts with the account: 0xABC",
       "Account balance: 1000000000000000000",
       "BettingPlatform deployed to: 0xDEF"] ∧
    stderrOf (run scenarioStub ()) = [] ∧
    exitStatusOf (run scenarioStub ()) = some 0 :=
  success_writes_four_lines scenarioStub () () () () () () () stubSigner []
    { ref := 1 } { ref := 2 } "0xDEF" 1000000000000000000 rfl rfl rfl rfl rfl rfl

/-- C2: the exit status is 0 if and only if all steps succeed; in every other
case some step fails with an error `e`, the exit status is 1, and the error
is written to the error stream before the exit, which ends the trace. -/
theorem exit_zero_iff_all_steps_succeed {σ : Type} (L : LedgerClient σ) (s : σ) :
    (exitStatusOf (run L s) = some 0 ↔ AllStepsSucceed L s) ∧
    (¬ AllStepsSucceed L s →
      exitStatusOf (run L s) = some 1 ∧
      ∃ e pre, StepFails L s e ∧
        run L s = pre ++ [.stderr [.error e], .exit 1] ∧
        exitStatusOf pre = none) := by
  constructor
  · constructor
    · intro h0
      rcases run_cases L s with hs | ⟨e, hf⟩
      · exact hs
      · rw [exit_of_stepFails L s e hf] at h0
        cases h0
    · exact exit_of_allStepsSucceed L s
  · intro hn
    rcases run_cases L s with hs | ⟨e, hf⟩
    · exact absurd hs hn
    · refine ⟨exit_of_stepFails L s e hf, e, ?_⟩
      obtain ⟨pre, hrun, -, hex⟩ := run_of_stepFails L s e hf
      refine ⟨pre ++ [.stderr [.str "Error deploying contract:", .error e]], hf, ?_, ?_⟩
      · rw [hrun]; simp
      · rw [exitStatusOf_append _ _ hex]; rfl

/-- C2 on a stub with no signer: not all steps succeed, and the run exits
with status 1 after writing the error. -/
theorem exit_zero_iff_all_steps_succeed_witness :
    exitStatusOf (run noSignerStub ()) = some 1 ∧
    ∃ e pre, StepFails noSignerStub () e ∧
      run noSignerStub () = pre ++ [.stderr [.error e], .exit 1] ∧
      exitStatusOf pre = none :=
  (exit_zero_iff_all_steps_succeed noSignerStub ()).2
    (by
      rintro ⟨deployer, rest, f, h, d, b, s1, s2, s3, s4, s5, s6, h1, -⟩
      cases h1)

/-- C3: when signer resolution returns an empty list, the run exits with
status 1, writes the error to the error stream, and its only ledger call is
`getSigners`: it makes no call to the balance query, to `getContractFactory`,
to `deploy`, to `waitForDeployment` or to `getAddress`. -/
theorem no_signer_stops_before_other_calls {σ : Type} (L : LedgerClient σ) (s s1 : σ)
    (h1 : L.getSigners s = (.ok [], s1)) :
    exitStatusOf (run L s) = some 1 ∧
    stderrOf (run L s) =
      [[.str "Error deploying contract:", .error undefinedAddressError],
       [.error undefinedAddressError]] ∧
    callsOf (run L s) = [.getSigners (.ok [])] ∧
    callCount .getBalance (run L s) = 0 ∧
    callCount .getContractFactory (run L s) = 0 ∧
    callCount .deploy (run L s) = 0 ∧
    callCount .waitForDeployment (run L s) = 0 ∧
    callCount .getAddress (run L s) = 0 := by
  rw [run_no_signer L s s1 h1]
  exact ⟨rfl, rfl, rfl, rfl, rfl, rfl, rfl, rfl⟩

/-- C3 on the stub with no signer. -/
theorem no_signer_stops_before_other_calls_witness :
    exitStatusOf (run noSignerStub ()) = some 1 ∧
    stderrOf (run noSignerStub ()) =
      [[.str "Error deploying contract:", .error undefinedAddressError],
       [.error undefinedAddressError]] ∧
    callsOf (run noSignerStub ()) = [.getSigners (.ok [])] ∧
    callCount .getBalance (run noSignerStub ()) = 0 ∧
    callCount .getContractFactory (run noSignerStub ()) = 0 ∧
    callCount .deploy (run noSignerStub ()) = 0 ∧
    callCount .waitForDeployment (run noSignerStub ()) = 0 ∧
    callCount .getAddress (run noSignerStub ()) = 0 :=
  no_signer_stops_before_other_calls noSignerStub () () rfl

/-- C4, as stated, fails: on a stub on which signer resolution succeeds and
artifact resolution fails, stdout holds no balance line and the balance query
was not called. -/
theorem artifact_failure_has_no_balance_line :
    missingArtifactStub.getSigners () = (.ok [stubSigner], ()) ∧
    missingArtifactStub.getContractFactory "BettingPlatform" () =
      (.threw stubError, ()) ∧
    hasLineStarting "Account balance:" (stdoutOf (run missingArtifactStub ())) = false ∧
    callCount .getBalance (run missingArtifactStub ()) = 0 ∧
    ¬ (hasLineStarting "Deploying contracts with the account:"
          (stdoutOf (run missingArtifactStub ())) = true ∧
       hasLineStarting "Account balance:" (stdoutOf (run missingArtifactStub ())) = true ∧
       0 < callCount .getBalance (run missingArtifactStub ()) ∧
       callCount .deploy (run missingArtifactStub ()) = 0 ∧
       exitStatusOf (run missingArtifactStub ()) = some 1) := by
  decide

/-- C4, amended: when signer resolution succeeds and artifact resolution
fails, only the identity step is complete: stdout is the announcement followed
by the account line, it holds no balance line, the balance query and `deploy`
are never called, and the run exits with status 1. -/
theorem artifact_failure_after_identity_only {σ : Type} (L : LedgerClient σ)
    (s s1 s2 : σ) (deployer : Signer) (rest : List Signer) (e : JsError)
    (h1 : L.getSigners s = (.ok (deployer :: rest), s1))
    (h2 : L.getContractFactory "BettingPlatform" s1 = (.threw e, s2)) :
    stdoutOf (run L s) =
      ["Deploying BettingPlatform contract...",
       "Deploying contracts with the account: " ++ deployer.address] ∧
    hasLineStarting "Account balance:" (stdoutOf (run L s)) = false ∧
    callCount .getBalance (run L s) = 0 ∧
    callCount .deploy (run L s) = 0 ∧
    exitStatusOf (run L s) = some 1 := by
  rw [run_artifact_threw L s s1 s2 deployer rest e h1 h2]
  exact ⟨rfl, no_balance_line deployer.address, rfl, rfl, rfl⟩

/-- C4 amended, on the stub whose artifact is missing. -/
theorem artifact_failure_after_identity_only_witness :
    stdoutOf (run missingArtifactStub ()) =
      ["Deploying BettingPlatform contract...",
       "Deploying contracts with the account: 0xABC"] ∧
    hasLineStarting "Account balance:" (stdoutOf (run missingArtifactStub ())) = false ∧
    callCount .getBalance (run missingArtifactStub ()) = 0 ∧
    callCount .deploy (run missingArtifactStub ()) = 0 ∧
    exitStatusOf (run missingArtifactStub ()) = some 1 :=
  artifact_failure_after_identity_only missingArtifactStub () () () stubSigner []
    stubError rfl rfl

/-- C5: when `deploy` succeeds and the confirmation wait fails, the run exits
with status 1, never calls `getAddress`, and writes no deployed line to
stdout. -/
theorem wait_failure_reports_no_address {σ : Type} (L : LedgerClient σ)
    (s s1 s2 s3 s4 : σ) (deployer : Signer) (rest : List Signer) (f : Factory)
    (h : Handle) (e : JsError)
    (h1 : L.getSigners s = (.ok (deployer :: rest), s1))
    (h2 : L.getContractFactory "BettingPlatform" s1 = (.ok f, s2))
    (h3 : L.deploy f [] s2 = (.ok h, s3))
    (h4 : L.waitForDeployment h s3 = (.threw e, s4)) :
    exitStatusOf (run L s) = some 1 ∧
    callCount .getAddress (run L s) = 0 ∧
    hasLineStarting "BettingPlatform deployed to:" (stdoutOf (run L s)) = false := by
  rw [run_wait_threw L s s1 s2 s3 s4 deployer rest f h e h1 h2 h3 h4]
  exact ⟨rfl, rfl, no_deployed_line deployer.address⟩

/-- C5 on the stub whose confirmation wait rejects. -/
theorem wait_failure_reports_no_address_witness :
    exitStatusOf (run waitFailsStub ()) = some 1 ∧
    callCount .getAddress (run waitFailsStub ()) = 0 ∧
    hasLineStarting "BettingPlatform deployed to:"
      (stdoutOf (run waitFailsStub ())) = false :=
  wait_failure_reports_no_address waitFailsStub () () () () () stubSigner []
    { ref := 1 } { ref := 2 } stubError rfl rfl rfl rfl

/-- C6: in every run, every `getAddress` call of the ledger-call log is
preceded by a `waitForDeployment` call on the same handle that returned
successfully. -/
theorem address_only_after_confirmation {σ : Type} (L : LedgerClient σ) (s : σ)
    (pre post : List Call) (hd : Handle) (r : Outcome String)
    (hc : callsOf (run L s) = pre ++ .getAddress hd r :: post) :
    Call.waitForDeployment hd (.ok ()) ∈ pre := by
  rcases run_cases L s with hs | ⟨e, hf⟩
  · obtain ⟨deployer, rest, f, h, d, b, s1, s2, s3, s4, s5, s6, h1, h2, h3, h4, h5, h6⟩ := hs
    rw [run_success L s s1 s2 s3 s4 s5 s6 deployer rest f h d b h1 h2 h3 h4 h5 h6] at hc
    simp [callsOf, List.cons_eq_append_iff] at hc
    aesop
  · cases hf with
    | signers e s1 h1 =>
      rw [run_signers_threw L s s1 e h1] at hc
      simp [callsOf, List.cons_eq_append_iff] at hc
    | noSigner s1 h1 =>
      rw [run_no_signer L s s1 h1] at hc
      simp [callsOf, List.cons_eq_append_iff] at hc
    | artifact e deployer rest s1 s2 h1 h2 =>
      rw [run_artifact_threw L s s1 s2 deployer rest e h1 h2] at hc
      simp [callsOf, List.cons_eq_append_iff] at hc
    | deploy e deployer rest f s1 s2 s3 h1 h2 h3 =>
      rw [run_deploy_threw L s s1 s2 s3 deployer rest f e h1 h2 h3] at hc
      simp [callsOf, List.cons_eq_append_iff] at hc
    | wait e deployer rest f h s1 s2 s3 s4 h1 h2 h3 h4 =>
      rw [run_wait_threw L s s1 s2 s3 s4 deployer rest f h e h1 h2 h3 h4] at hc
      simp [callsOf, List.cons_eq_append_iff] at hc
    | address e deployer rest f h s1 s2 s3 s4 s5 h1 h2 h3 h4 h5 =>
      rw [run_address_threw L s s1 s2 s3 s4 s5 deployer rest f h e h1 h2 h3 h4 h5] at hc
      simp [callsOf, List.cons_eq_append_iff] at hc
      aesop
    | balance e deployer rest f h d s1 s2 s3 s4 s5 s6 h1 h2 h3 h4 h5 h6 =>
      rw [run_balance_threw L s s1 s2 s3 s4 s5 s6 deployer rest f h d e h1 h2 h3 h4 h5 h6]
        at hc
      simp [callsOf, List.cons_eq_append_iff] at hc
      aesop

/-- C6 on the scenario stub: the one `getAddress` call comes after the
successful wait on the same handle. -/
theorem address_only_after_confirmation_witness :
    Call.waitForDeployment { ref := 2 } (.ok ()) ∈
      [Call.getSigners (.ok [stubSigner]),
       .getContractFactory "BettingPlatform" (.ok { ref := 1 }),
       .deploy { ref := 1 } [] (.ok { ref := 2 }),
       .waitForDeployment { ref := 2 } (.ok ())] :=
  address_only_after_confirmation scenarioStub () _
    [.getBalance 0 "0xABC" (.ok 1000000000000000000)] { ref := 2 } (.ok "0xDEF") rfl

/-- C7: one invocation makes at most one deployment attempt: `deploy` is
called at most once, always with no constructor argument, and exactly once
whenever a signer is returned and the artifact is resolved. -/
theorem at_most_one_deploy_attempt {σ : Type} (L : LedgerClient σ) (s : σ) :
    callCount .deploy (run L s) ≤ 1 ∧
    (∀ f args r, Call.deploy f args r ∈ callsOf (run L s) → args = []) ∧
    (∀ deployer rest f s1 s2,
      L.getSigners s = (.ok (deployer :: rest), s1) →
      L.getContractFactory "BettingPlatform" s1 = (.ok f, s2) →
      callCount .deploy (run L s) = 1) := by
  rcases run_cases L s with hs | ⟨e, hf⟩
  · obtain ⟨deployer, rest, f, h, d, b, s1, s2, s3, s4, s5, s6, h1, h2, h3, h4, h5, h6⟩ := hs
    rw [run_success L s s1 s2 s3 s4 s5 s6 deployer rest f h d b h1 h2 h3 h4 h5 h6]
    refine ⟨by simp [callCount, callsOf, Call.op], ?_, fun _ _ _ _ _ _ _ => rfl⟩
    intro f' args r hm
    simp [callsOf] at hm
    exact hm.2.1
  · cases hf with
    | signers e s1 h1 =>
      rw [run_signers_threw L s s1 e h1]
      refine ⟨by simp [callCount, callsOf, Call.op], ?_, ?_⟩
      · intro f' args r hm
        simp [callsOf] at hm
      · intro deployer rest f s1' s2' g1 g2
        rw [h1] at g1
        cases g1
    | noSigner s1 h1 =>
      rw [run_no_signer L s s1 h1]
      refine ⟨by simp [callCount, callsOf, Call.op], ?_, ?_⟩
      · intro f' args r hm
        simp [callsOf] at hm
      · intro deployer rest f s1' s2' g1 g2
        rw [h1] at g1
        cases g1
    | artifact e deployer rest s1 s2 h1 h2 =>
      rw [run_artifact_threw L s s1 s2 deployer rest e h1 h2]
      refine ⟨by simp [callCount, callsOf, Call.op], ?_, ?_⟩
      · intro f' args r hm
        simp [callsOf] at hm
      · intro deployer' rest' f s1' s2' g1 g2
        rw [h1] at g1
        cases g1
        rw [h2] at g2
        cases g2
    | deploy e deployer rest f s1 s2 s3 h1 h2 h3 =>
      rw [run_deploy_threw L s s1 s2 s3 deployer rest f e h1 h2 h3]
      refine ⟨by simp [callCount, callsOf, Call.op], ?_, fun _ _ _ _ _ _ _ => rfl⟩
      intro f' args r hm
      simp [callsOf] at hm
      exact hm.2.1
    | wait e deployer rest f h s1 s2 s3 s4 h1 h2 h3 h4 =>
      rw [run_wait_threw L s s1 s2 s3 s4 deployer rest f h e h1 h2 h3 h4]
      refine ⟨by simp [callCount, callsOf, Call.op], ?_, fun _ _ _ _ _ _ _ => rfl⟩
      intro f' args r hm
      simp [callsOf] at hm
      exact hm.2.1
    | address e deployer rest f h s1 s2 s3 s4 s5 h1 h2 h3 h4 h5 =>
      rw [run_address_threw L s s1 s2 s3 s4 s5 deployer rest f h e h1 h2 h3 h4 h5]
      refine ⟨by simp [callCount, callsOf, Call.op], ?_, fun _ _ _ _ _ _ _ => rfl⟩
      intro f' args r hm
      simp [callsOf] at hm
      exact hm.2.1
    | balance e deployer rest f h d s1 s2 s3 s4 s5 s6 h1 h2 h3 h4 h5 h6 =>
      rw [run_balance_threw L s s1 s2 s3 s4 s5 s6 deployer rest f h d e h1 h2 h3 h4 h5 h6]
      refine ⟨by simp [callCount, callsOf, Call.op], ?_, fun _ _ _ _ _ _ _ => rfl⟩
      intro f' args r hm
      simp [callsOf] at hm
      exact hm.2.1

/-- C7 on the scenario stub: exactly one `deploy` call. -/
theorem at_most_one_deploy_attempt_witness :
    callCount .deploy (run scenarioStub ()) = 1 :=
  (at_most_one_deploy_attempt scenarioStub ()).2.2 stubSigner [] { ref := 1 } () ()
    rfl rfl

/-- C8, as stated, fails on two stubs on which a run succeeds. On the scenario
stub, whose `deploy` resolves with the same handle each time, two invocations
do not yield two distinct handles. On the stub whose signer is available once,
the second invocation fails before `deploy` and the combined log holds one
`deploy` call. -/
theorem two_invocations_not_always_two_distinct_handles :
    ((main scenarioStub { ledger := (), trace := [] }).1 = .ok () ∧
      handlesOf (callsOf (runTwice scenarioStub ())) = [{ ref := 2 }, { ref := 2 }] ∧
      ¬ (handlesOf (callsOf (runTwice scenarioStub ()))).Nodup) ∧
    ((main oneShotStub { ledger := 0, trace := [] }).1 = .ok () ∧
      callCount .deploy (runTwice oneShotStub 0) = 1 ∧
      ¬ callCount .deploy (runTwice oneShotStub 0) = 2) := by
  decide

/-- C8, amended: when two invocations of `main` in sequence both succeed, the
second being asked of the client state the first one left, the combined trace
is the trace of the first followed by the trace of a fresh invocation from
that state; the combined log is the six calls of the first followed by the six
calls of the second, each made on the signer, factory and handle that
invocation itself obtained; it holds exactly two `deploy` calls, and the two
handles are distinct exactly when the two `deploy` calls returned distinct
handles. -/
theorem two_invocations_are_independent {σ : Type} (L : LedgerClient σ)
    (s s1 s2 s3 s4 s5 s6 u1 u2 u3 u4 u5 u6 : σ)
    (deployer : Signer) (rest : List Signer) (f : Factory) (h : Handle)
    (d : String) (b : Nat)
    (deployer2 : Signer) (rest2 : List Signer) (f2 : Factory) (hh : Handle)
    (d2 : String) (b2 : Nat)
    (p1 : L.getSigners s = (.ok (deployer :: rest), s1))
    (p2 : L.getContractFactory "BettingPlatform" s1 = (.ok f, s2))
    (p3 : L.deploy f [] s2 = (.ok h, s3))
    (p4 : L.waitForDeployment h s3 = (.ok (), s4))
    (p5 : L.getAddress h s4 = (.ok d, s5))
    (p6 : L.getBalance deployer.provider deployer.address s5 = (.ok b, s6))
    (q1 : L.getSigners s6 = (.ok (deployer2 :: rest2), u1))
    (q2 : L.getContractFactory "BettingPlatform" u1 = (.ok f2, u2))
    (q3 : L.deploy f2 [] u2 = (.ok hh, u3))
    (q4 : L.waitForDeployment hh u3 = (.ok (), u4))
    (q5 : L.getAddress hh u4 = (.ok d2, u5))
    (q6 : L.getBalance deployer2.provider deployer2.address u5 = (.ok b2, u6)) :
    runTwice L s =
      (main L { ledger := s, trace := [] }).2.trace ++
        (main L { ledger := s6, trace := [] }).2.trace ∧
    callsOf (runTwice L s) =
      [.getSigners (.ok (deployer :: rest)),
       .getContractFactory "BettingPlatform" (.ok f),
       .deploy f [] (.ok h),
       .waitForDeployment h (.ok ()),
       .getAddress h (.ok d),
       .getBalance deployer.provider deployer.address (.ok b),
       .getSigners (.ok (deployer2 :: rest2)),
       .getContractFactory "BettingPlatform" (.ok f2),
       .deploy f2 [] (.ok hh),
       .waitForDeployment hh (.ok ()),
       .getAddress hh (.ok d2),
       .getBalance deployer2.provider deployer2.address (.ok b2)] ∧
    stdoutOf (runTwice L s) =
      ["Deploying BettingPlatform contract...",
       "Deploying contracts with the account: " ++ deployer.address,
       "Account balance: " ++ toString b,
       "BettingPlatform deployed to: " ++ d,
       "Deploying BettingPlatform contract...",
       "Deploying contracts with the account: " ++ deployer2.address,
       "Account balance: " ++ toString b2,
       "BettingPlatform deployed to: " ++ d2] ∧
    callCount .deploy (runTwice L s) = 2 ∧
    handlesOf (callsOf (runTwice L s)) = [h, hh] ∧
    ((handlesOf (callsOf (runTwice L s))).Nodup ↔ h ≠ hh) := by
  have e1 := main_success L s s1 s2 s3 s4 s5 s6 [] deployer rest f h d b p1 p2 p3 p4 p5 p6
  have e3 := main_success L s6 u1 u2 u3 u4 u5 u6 [] deployer2 rest2 f2 hh d2 b2
    q1 q2 q3 q4 q5 q6
  have e2 := main_success L s6 u1 u2 u3 u4 u5 u6
    (([] : List Effect) ++
      [.stdout "Deploying BettingPlatform contract...",
       .call (.getSigners (.ok (deployer :: rest))),
       .stdout ("Deploying contracts with the account: " ++ deployer.address),
       .call (.getContractFactory "BettingPlatform" (.ok f)),
       .call (.deploy f [] (.ok h)),
       .call (.waitForDeployment h (.ok ())),
       .call (.getAddress h (.ok d)),
       .call (.getBalance deployer.provider deployer.address (.ok b)),
       .stdout ("Account balance: " ++ toString b),
       .stdout ("BettingPlatform deployed to: " ++ d)])
    deployer2 rest2 f2 hh d2 b2 q1 q2 q3 q4 q5 q6
  have hrun : runTwice L s =
      [.stdout "Deploying BettingPlatform contract...",
       .call (.getSigners (.ok (deployer :: rest))),
       .stdout ("Deploying contracts with the account: " ++ deployer.address),
       .call (.getContractFactory "BettingPlatform" (.ok f)),
       .call (.deploy f [] (.ok h)),
       .call (.waitForDeployment h (.ok ())),
       .call (.getAddress h (.ok d)),
       .call (.getBalance deployer.provider deployer.address (.ok b)),
       .stdout ("Account balance: " ++ toString b),
       .stdout ("BettingPlatform deployed to: " ++ d),
       .stdout "Deploying BettingPlatform contract...",
       .call (.getSigners (.ok (deployer2 :: rest2))),
       .stdout ("Deploying contracts with the account: " ++ deployer2.address),
       .call (.getContractFactory "BettingPlatform" (.ok f2)),
       .call (.deploy f2 [] (.ok hh)),
       .call (.waitForDeployment hh (.ok ())),
       .call (.getAddress hh (.ok d2)),
       .call (.getBalance deployer2.provider deployer2.address (.ok b2)),
       .stdout ("Account balance: " ++ toString b2),
       .stdout ("BettingPlatform deployed to: " ++ d2)] := by
    show (Script.bind (main L) (fun _ => main L) { ledger := s, trace := [] }).2.trace = _
    simp only [Script.bind, e1, e2]
    rfl
  refine ⟨?_, ?_, ?_, ?_, ?_, ?_⟩
  · rw [hrun, e1, e3]
    rfl
  · rw [hrun]; rfl
  · rw [hrun]; rfl
  · rw [hrun]; rfl
  · rw [hrun]; rfl
  · rw [hrun]
    show ([h, hh] : List Handle).Nodup ↔ h ≠ hh
    simp

/-- C8 amended, on the stub that resolves `deploy` with a handle not returned
before: two invocations from state 0 deploy twice, on the distinct handles 0
and 1. -/
theorem two_invocations_are_independent_witness :
    callCount .deploy (runTwice freshHandleStub 0) = 2 ∧
    handlesOf (callsOf (runTwice freshHandleStub 0)) = [{ ref := 0 }, { ref := 1 }] ∧
    (handlesOf (callsOf (runTwice freshHandleStub 0))).Nodup :=
  have w := two_invocations_are_independent freshHandleStub 0 0 0 1 1 1 1 1 1 2 2 2 2
    stubSigner [] { ref := 1 } { ref := 0 } "0xDEF" 1000000000000000000
    stubSigner [] { ref := 1 } { ref := 1 } "0xDEF" 1000000000000000000
    rfl rfl rfl rfl rfl rfl rfl rfl rfl rfl rfl rfl
  ⟨w.2.2.2.1, w.2.2.2.2.1, w.2.2.2.2.2.2 (by decide)⟩

/-- C9: when every other step succeeds and the balance query fails, the
failure comes after the ledger transaction: the call log is a successful
`getSigners`, `getContractFactory`, `deploy`, `waitForDeployment` and
`getAddress` followed by the failed `getBalance`; the run exits with status 1
and stdout holds neither a balance line nor a deployed line. -/
theorem balance_failure_after_deployment {σ : Type} (L : LedgerClient σ)
    (s s1 s2 s3 s4 s5 s6 : σ) (deployer : Signer) (rest : List Signer)
    (f : Factory) (h : Handle) (d : String) (e : JsError)
    (h1 : L.getSigners s = (.ok (deployer :: rest), s1))
    (h2 : L.getContractFactory "BettingPlatform" s1 = (.ok f, s2))
    (h3 : L.deploy f [] s2 = (.ok h, s3))
    (h4 : L.waitForDeployment h s3 = (.ok (), s4))
    (h5 : L.getAddress h s4 = (.ok d, s5))
    (h6 : L.getBalance deployer.provider deployer.address s5 = (.threw e, s6)) :
    callsOf (run L s) =
      [.getSigners (.ok (deployer :: rest)),
       .getContractFactory "BettingPlatform" (.ok f),
       .deploy f [] (.ok h),
       .waitForDeployment h (.ok ()),
       .getAddress h (.ok d),
       .getBalance deployer.provider deployer.address (.threw e)] ∧
    exitStatusOf (run L s) = some 1 ∧
    hasLineStarting "Account balance:" (stdoutOf (run L s)) = false ∧
    hasLineStarting "BettingPlatform deployed to:" (stdoutOf (run L s)) = false := by
  rw [run_balance_threw L s s1 s2 s3 s4 s5 s6 deployer rest f h d e h1 h2 h3 h4 h5 h6]
  exact ⟨rfl, rfl, no_balance_line deployer.address, no_deployed_line deployer.address⟩

/-- C9 on the stub whose balance query rejects. -/
theorem balance_failure_after_deployment_witness :
    callsOf (run balanceFailsStub ()) =
      [.getSigners (.ok [stubSigner]),
       .getContractFactory "BettingPlatform" (.ok { ref := 1 }),
       .deploy { ref := 1 } [] (.ok { ref := 2 }),
       .waitForDeployment { ref := 2 } (.ok ()),
       .getAddress { ref := 2 } (.ok "0xDEF"),
       .getBalance 0 "0xABC" (.threw stubError)] ∧
    exitStatusOf (run balanceFailsStub ()) = some 1 ∧
    hasLineStarting "Account balance:" (stdoutOf (run balanceFailsStub ())) = false ∧
    hasLineStarting "BettingPlatform deployed to:"
      (stdoutOf (run balanceFailsStub ())) = false :=
  balance_failure_after_deployment balanceFailsStub () () () () () () () stubSigner []
    { ref := 1 } { ref := 2 } "0xDEF" stubError rfl rfl rfl rfl rfl rfl

/-- C10: when some step fails with error `e`, the promise of `main` rejects
with `e` unchanged and the run writes exactly two records to the error stream,
in this order: `Error deploying contract:` followed by `e`, then `e` alone;
the exit with status 1 follows both and ends the trace. -/
theorem failure_writes_two_error_records {σ : Type} (L : LedgerClient σ) (s : σ)
    (e : JsError) (hf : StepFails L s e) :
    (main L { ledger := s, trace := [] }).1 = .threw e ∧
    stderrOf (run L s) =
      [[.str "Error deploying contract:", .error e], [.error e]] ∧
    ∃ pre, run L s = pre ++
        [.stderr [.str "Error deploying contract:", .error e], .stderr [.error e],
         .exit 1] ∧ stderrOf pre = [] ∧ exitStatusOf pre = none := by
  obtain ⟨pre, hrun, herr, hex⟩ := run_of_stepFails L s e hf
  refine ⟨main_of_stepFails L s [] e hf, ?_, pre, hrun, herr, hex⟩
  rw [hrun, stderrOf_append, herr]
  rfl

/-- C10 on the stub whose confirmation wait rejects. -/
theorem failure_writes_two_error_records_witness :
    (main waitFailsStub { ledger := (), trace := [] }).1 = .threw stubError ∧
    stderrOf (run waitFailsStub ()) =
      [[.str "Error deploying contract:", .error stubError], [.error stubError]] ∧
    ∃ pre, run waitFailsStub () = pre ++
        [.stderr [.str "Error deploying contract:", .error stubError],
         .stderr [.error stubError], .exit 1] ∧
      stderrOf pre = [] ∧ exitStatusOf pre = none :=
  failure_writes_two_error_records waitFailsStub () stubError
    (.wait stubError stubSigner [] { ref := 1 } { ref := 2 } () () () () rfl rfl rfl rfl)

end Deploy
